import Mathlib

/-!
# Verification of the Windows job supervisor (`jobsupervisor/windows_job_supervisor.go`)

Shallow embedding of the supervisor's service-lifecycle controller, descriptor
generator, event-log tailer and failure-dispatch loop.  External collaborators
(the OS command runner, the filesystem, the JSON/XML codecs and the
`bosh-utils/state` monitor) are modelled at their interfaces: each external call
is a parameter supplying its result, and the JSON/XML codecs are abstract
encode/decode functions.  Go byte strings are modelled as `String` (for the
status/stdout parsing, which uses `strings.TrimSpace` / `strings.Split`) or as
`List Char` (for the byte-level tailer buffering).  Go maps are modelled as
association lists, the list order standing for the (arbitrary) iteration order.
-/

namespace jobsupervisor

/-- The constant description tag attached to every service owned by this
supervisor (`serviceDescription = "vcap"` in the source). -/
def serviceDescription : String := "vcap"

/-- `serviceLogMode` struct: `<log mode="...">`. -/
structure serviceLogMode where
  Mode : String
deriving DecidableEq

/-- `serviceOnfailure` struct: `<onfailure action="..." delay="...">`. -/
structure serviceOnfailure where
  Action : String
  Delay : String
deriving DecidableEq

/-- `serviceEnv` struct: one `<env name="..." value="..."/>` binding. -/
structure serviceEnv where
  Name : String
  Value : String
deriving DecidableEq

/-- `WindowsServiceWrapperConfig`: the service descriptor handed to the
service-wrapper XML encoder.  The `xml.Name` field of the Go struct is a
codec-level tag with no data content and is omitted. -/
structure WindowsServiceWrapperConfig where
  ID : String
  Name : String
  Description : String
  Executable : String
  Arguments : List String
  LogPath : String
  LogMode : serviceLogMode
  Onfailure : serviceOnfailure
  Env : List serviceEnv
deriving DecidableEq

/-- `WindowsProcess`: one process spec from the job registration input.
`Env` is a Go `map[string]string`, modelled as an association list whose
order stands for the map's iteration order. -/
structure WindowsProcess where
  Name : String
  Executable : String
  Args : List String
  Env : List (String × String)
deriving DecidableEq

/-- `WindowsProcess.ServiceWrapperConfig` (source lines 94-115): builds the
service descriptor for one process.  The Go function is total: it performs no
validation of any field and always returns a descriptor.  The `for k, v :=
range p.Env` append loop becomes a `map` over the association list. -/
def WindowsProcess.ServiceWrapperConfig (p : WindowsProcess) (logPath : String) :
    WindowsServiceWrapperConfig :=
  { ID := p.Name
    Name := p.Name
    Description := serviceDescription
    Executable := p.Executable
    Arguments := p.Args
    LogPath := logPath
    LogMode := { Mode := "append" }
    Onfailure := { Action := "restart", Delay := "5 sec" }
    Env := p.Env.map (fun kv => { Name := kv.1, Value := kv.2 }) }

/-- `WindowsProcessConfig`: the parsed job registration document. -/
structure WindowsProcessConfig where
  Processes : List WindowsProcess

/-!
## Status (source lines 190-216)

`Status()` consults the stopped-marker file and one `powershell` invocation of
`getStatusScript`.  Both externals are parameters: `stoppedFileExists` is the
result of `s.fs.FileExists(s.stoppedFilePath())`, and `cmd` is the result of
`s.cmdRunner.RunCommand(...)` — `Except.error ()` when the command errors,
`Except.ok stdout` otherwise.
-/

/-- Go's `strings.TrimSpace`: the input with leading and trailing whitespace
removed, implemented over the character list so that it evaluates by kernel
reduction. -/
def trimSpace (s : String) : String :=
  String.mk (((s.toList.dropWhile Char.isWhitespace).reverse.dropWhile
    Char.isWhitespace).reverse)

/-- `windowsJobSupervisor.Status`, translated line by line: marker check, then
the manager query; on success the stdout is trimmed, an empty trim reports
`"running"`, otherwise the trim is split on `"\r\n"` and the loop returning
`"failing"` at the first status different from `"Running"` is the `List.all`
test. -/
def Status (stoppedFileExists : Bool) (cmd : Except Unit String) : String :=
  if stoppedFileExists then "stopped"
  else
    match cmd with
    | Except.error _ => "failing"
    | Except.ok stdout0 =>
      let stdout := trimSpace stdout0
      if stdout.length = 0 then "running"
      else
        let statuses := stdout.splitOn "\r\n"
        if statuses.all (fun st => st = "Running") then "running" else "failing"

/-- The per-service states the code extracts from the manager query's stdout:
none when the trimmed output is empty, otherwise the trim split on `"\r\n"`. -/
def parseStates (stdout0 : String) : List String :=
  let stdout := trimSpace stdout0
  if stdout.length = 0 then [] else stdout.splitOn "\r\n"

/-- The decision function stated by the spec for `Status()`, written from the
spec's words over the marker flag and the (error or list-of-states) query
result: marker present — stopped; query error — failing; no states — running;
any state different from the running literal — failing; otherwise running. -/
def statusDecision (stoppedFileExists : Bool) (q : Except Unit (List String)) : String :=
  if stoppedFileExists then "stopped"
  else
    match q with
    | Except.error _ => "failing"
    | Except.ok [] => "running"
    | Except.ok states =>
      if states.all (fun st => st = "Running") then "running" else "failing"

/-- **C1.** `Status()` implements exactly the spec's decision function: it
equals `statusDecision` applied to the marker flag and the parsed per-service
states (stopped wins; a query error is failing; an empty state set is running;
any state other than `"Running"` is failing; all-`"Running"` is running). -/
theorem Status_implements_statusDecision (stoppedFileExists : Bool)
    (cmd : Except Unit String) :
    Status stoppedFileExists cmd
      = statusDecision stoppedFileExists (cmd.map parseStates) := by
  cases stoppedFileExists with
  | true => rfl
  | false =>
    cases cmd with
    | error e => rfl
    | ok stdout0 =>
      show Status false (Except.ok stdout0)
        = statusDecision false (Except.ok (parseStates stdout0))
      unfold Status statusDecision parseStates
      by_cases h : (trimSpace stdout0).length = 0
      · simp [h]
      · simp only [h, if_false, if_neg h, Bool.false_eq_true]
        cases hs : (trimSpace stdout0).splitOn "\r\n" with
        | nil => simp
        | cons a l => simp

/-!
## Descriptor generation (source lines 94-115)

Claims C2 and C5.  The XML wire codec is an external collaborator
(`encoding/xml`): it serializes the `WindowsServiceWrapperConfig` struct field
by field, so the rendered-and-decoded descriptor is the struct itself and the
round-trip claims are stated on the struct's fields.
-/

/-- **C2 counterexample.** For a Process spec whose executable path is empty,
`ServiceWrapperConfig` does NOT signal a configuration error: the Go function
is total, performs no validation, and produces a descriptor (with an empty
`Executable` field) — contradicting the claim that generation fails on an
empty executable path. -/
theorem serviceWrapperConfig_empty_executable_produces_descriptor :
    WindowsProcess.ServiceWrapperConfig
        { Name := "proc", Executable := "", Args := ["-v"], Env := [("A", "1")] }
        "logdir"
      = { ID := "proc"
          Name := "proc"
          Description := "vcap"
          Executable := ""
          Arguments := ["-v"]
          LogPath := "logdir"
          LogMode := { Mode := "append" }
          Onfailure := { Action := "restart", Delay := "5 sec" }
          Env := [{ Name := "A", Value := "1" }] } := rfl

/-- **C2 amended.** Descriptor generation never fails: for every Process spec
— the empty executable path included — `ServiceWrapperConfig` produces a
descriptor whose fields are copied verbatim from the spec, with no validation
and no failure channel. -/
theorem serviceWrapperConfig_total (p : WindowsProcess) (logPath : String) :
    p.ServiceWrapperConfig logPath
      = { ID := p.Name
          Name := p.Name
          Description := serviceDescription
          Executable := p.Executable
          Arguments := p.Args
          LogPath := logPath
          LogMode := { Mode := "append" }
          Onfailure := { Action := "restart", Delay := "5 sec" }
          Env := p.Env.map (fun kv => { Name := kv.1, Value := kv.2 }) } := rfl

/-- **C5.** For every Process spec with a non-empty executable, the generated
descriptor round-trips: its executable is the spec's executable, its argument
list is the spec's argument list in the same order, and its environment
bindings, read back as a name-to-value association list, are exactly the
spec's environment mapping — no re-quoting of the executable or of any
argument. -/
theorem serviceWrapperConfig_roundtrip (p : WindowsProcess) (logPath : String)
    (_hexe : p.Executable ≠ "") :
    (p.ServiceWrapperConfig logPath).Executable = p.Executable
      ∧ (p.ServiceWrapperConfig logPath).Arguments = p.Args
      ∧ (p.ServiceWrapperConfig logPath).Env.map (fun e => (e.Name, e.Value)) = p.Env := by
  refine ⟨rfl, rfl, ?_⟩
  unfold WindowsProcess.ServiceWrapperConfig
  simp only [List.map_map]
  have hid : ((fun e : serviceEnv => (e.Name, e.Value))
      ∘ fun kv : String × String => ({ Name := kv.1, Value := kv.2 } : serviceEnv)) = id := by
    funext kv
    rfl
  rw [hid, List.map_id]

/-- **C5 witness.** The round-trip theorem applied to a concrete Process spec
with a non-empty executable. -/
theorem serviceWrapperConfig_roundtrip_witness :
    (({ Name := "p1", Executable := "/bin/run", Args := ["-a", "-b"],
        Env := [("K", "V"), ("X", "Y")] } : WindowsProcess).Executable ≠ "")
      ∧ (({ Name := "p1", Executable := "/bin/run", Args := ["-a", "-b"],
            Env := [("K", "V"), ("X", "Y")] } : WindowsProcess).ServiceWrapperConfig
              "logs").Executable = "/bin/run" :=
  ⟨by decide,
   (serviceWrapperConfig_roundtrip
      { Name := "p1", Executable := "/bin/run", Args := ["-a", "-b"],
        Env := [("K", "V"), ("X", "Y")] }
      "logs" (by decide)).1⟩

/-!
## Event-log tailer (`monitorJob`, source lines 360-394)

The goroutine loops: `p.Wait()`, then `r.ReadBytes('\n')` on the buffered
reader over the live-appended log, then a switch on the read error.  Model:
the bytes are `List Char`; the reader state is the `unread` suffix of the log
(consumed bytes never return; writes append to `unread`); one loop iteration
takes the fragment appended to the log since the previous iteration.
`ReadBytes` returning a complete line is `readBytesNewline = some (line,
rest)`; returning the partial bytes read so far with `io.EOF` is `readBytesNewline =
none` with the whole `unread` as the returned bytes.  `json.Unmarshal` is an
external codec, passed as an abstract `decode` function.  Sends on the
bounded channel are recorded in order in `out`.
-/

/-- `windowsServiceEvent`: one decoded failure-event record. -/
structure windowsServiceEvent where
  Datetime : String
  Event : String
  ProcessName : String
  ExitCode : Int
deriving DecidableEq

/-- One `ReadBytes('\n')` call on the unread bytes: the first line up to and
including the newline plus the remaining bytes, or `none` when no newline is
present (the `io.EOF` case, in which the whole input was returned). -/
def readBytesNewline : List Char → Option (List Char × List Char)
  | [] => none
  | c :: cs =>
    if c = '\n' then some ([c], cs)
    else
      match readBytesNewline cs with
      | some (l, r) => some (c :: l, r)
      | none => none

/-- State of one tailer goroutine: the unread log bytes, the partial-line
buffer `buf` (`var buf bytes.Buffer` in the source), and the events sent to
the channel so far, in order. -/
structure TailerState where
  unread : List Char
  buf : List Char
  out : List windowsServiceEvent
deriving DecidableEq

/-- The tailer's initial state: reader at the start of the (truncated-empty)
log, empty buffer, nothing published. -/
def tailerInit : TailerState :=
  { unread := [], buf := [], out := [] }

/-- One iteration of the `monitorJob` read loop (source lines 370-391), with
`appended` the bytes written to the log since the last iteration.  On a
complete line (`err == nil`): if the buffer is non-empty, prepend it and reset
it; decode; on success send to the channel, on failure only log — either way
continue.  On `io.EOF`: write the returned partial bytes to the buffer and
back off. -/
def tailerIter (decode : List Char → Option windowsServiceEvent)
    (st : TailerState) (appended : List Char) : TailerState :=
  let unread := st.unread ++ appended
  match readBytesNewline unread with
  | some (b0, rest) =>
    let b := if st.buf.length ≠ 0 then st.buf ++ b0 else b0
    match decode b with
    | some m => { unread := rest, buf := [], out := st.out ++ [m] }
    | none => { unread := rest, buf := [], out := st.out }
  | none => { unread := [], buf := st.buf ++ unread, out := st.out }

/-- Run the tailer loop for one iteration per scheduled append (an empty
append is an iteration in which the wrapper wrote nothing). -/
def tailerRun (decode : List Char → Option windowsServiceEvent)
    (st : TailerState) (appends : List (List Char)) : TailerState :=
  appends.foldl (tailerIter decode) st

theorem readBytesNewline_of_no_newline (a : List Char) (h : '\n' ∉ a) :
    readBytesNewline a = none := by
  induction a with
  | nil => rfl
  | cons c cs ih =>
    have hc : ¬ c = '\n' := fun he => h (he ▸ List.mem_cons_self c cs)
    have hcs : readBytesNewline cs = none := ih (fun hm => h (List.mem_cons_of_mem c hm))
    simp [readBytesNewline, hc, hcs]

theorem readBytesNewline_first_line (a rest : List Char) (h : '\n' ∉ a) :
    readBytesNewline (a ++ '\n' :: rest) = some (a ++ ['\n'], rest) := by
  induction a with
  | nil => simp [readBytesNewline]
  | cons c cs ih =>
    have hc : ¬ c = '\n' := fun he => h (he ▸ List.mem_cons_self c cs)
    have hcs := ih (fun hm => h (List.mem_cons_of_mem c hm))
    simp [readBytesNewline, hc, hcs]

/-- **C3.** A record written in two fragments — a `pre` containing no newline,
then later the remainder `s0 ++ ['\n']` terminated by the newline — is decoded
and published exactly once: the first iteration hits end-of-stream and buffers
`pre`; the second prepends the buffer to the completed line and decodes the
full record, publishing exactly `[m]`. -/
theorem tailer_two_fragment_record_publishes_once
    (decode : List Char → Option windowsServiceEvent)
    (pre s0 : List Char) (m : windowsServiceEvent)
    (hpre : '\n' ∉ pre) (hs0 : '\n' ∉ s0)
    (hdec : decode (pre ++ (s0 ++ ['\n'])) = some m) :
    (tailerRun decode tailerInit [pre, s0 ++ ['\n']]).out = [m] := by
  have h1 : tailerIter decode tailerInit pre = { unread := [], buf := pre, out := [] } := by
    simp [tailerIter, tailerInit, readBytesNewline_of_no_newline pre hpre]
  have hr : readBytesNewline (s0 ++ '\n' :: ([] : List Char))
      = some (s0 ++ ['\n'], []) := readBytesNewline_first_line s0 [] hs0
  have h2 : tailerIter decode { unread := [], buf := pre, out := [] } (s0 ++ ['\n'])
      = { unread := [], buf := [], out := [m] } := by
    by_cases hp : pre = []
    · subst hp
      have hdec2 : decode (s0 ++ ['\n']) = some m := by simpa using hdec
      simp [tailerIter, hr, hdec2]
    · have hlen : pre.length ≠ 0 := by simpa [List.length_eq_zero] using hp
      simp [tailerIter, hr, hlen, hdec]
  show (tailerIter decode (tailerIter decode tailerInit pre) (s0 ++ ['\n'])).out = [m]
  rw [h1, h2]

/-- **C3 witness.** The two-fragment theorem applied to a concrete split: a
decoder recognising the record `"ab\n"`, written as the fragment `"ab"`
followed by `"\n"`. -/
theorem tailer_two_fragment_record_publishes_once_witness :
    (tailerRun
        (fun b => if b = ['a', 'b', '\n']
          then some { Datetime := "t1", Event := "exited", ProcessName := "p1", ExitCode := 1 }
          else none)
        tailerInit [['a', 'b'], [] ++ ['\n']]).out
      = [{ Datetime := "t1", Event := "exited", ProcessName := "p1", ExitCode := 1 }] :=
  tailer_two_fragment_record_publishes_once
    (fun b => if b = ['a', 'b', '\n']
      then some { Datetime := "t1", Event := "exited", ProcessName := "p1", ExitCode := 1 }
      else none)
    ['a', 'b'] [] { Datetime := "t1", Event := "exited", ProcessName := "p1", ExitCode := 1 }
    (by decide) (by decide) (by simp)

/-- **C6.** A well-formed record followed by a malformed record: the tailer
publishes exactly the well-formed event; the decode failure on the malformed
line is only logged and the record discarded (`out` unchanged), and the read
loop keeps running — a further well-formed record written later is still
decoded and published. -/
theorem tailer_malformed_record_discarded
    (decode : List Char → Option windowsServiceEvent)
    (a1 a2 a3 : List Char) (m1 m3 : windowsServiceEvent)
    (h1 : '\n' ∉ a1) (h2 : '\n' ∉ a2) (h3 : '\n' ∉ a3)
    (hd1 : decode (a1 ++ ['\n']) = some m1)
    (hd2 : decode (a2 ++ ['\n']) = none)
    (hd3 : decode (a3 ++ ['\n']) = some m3) :
    (tailerRun decode tailerInit [(a1 ++ ['\n']) ++ (a2 ++ ['\n']), []]).out = [m1]
      ∧ (tailerRun decode tailerInit
          [(a1 ++ ['\n']) ++ (a2 ++ ['\n']), [], a3 ++ ['\n']]).out = [m1, m3] := by
  have hr1 : readBytesNewline (a1 ++ '\n' :: (a2 ++ ['\n']))
      = some (a1 ++ ['\n'], a2 ++ ['\n']) :=
    readBytesNewline_first_line a1 (a2 ++ ['\n']) h1
  have s1 : tailerIter decode tailerInit ((a1 ++ ['\n']) ++ (a2 ++ ['\n']))
      = { unread := a2 ++ ['\n'], buf := [], out := [m1] } := by
    simp [tailerIter, tailerInit, hr1, hd1]
  have hr2 : readBytesNewline (a2 ++ ['\n'])
      = some (a2 ++ ['\n'], []) := by
    have := readBytesNewline_first_line a2 [] h2
    simpa using this
  have s2 : tailerIter decode { unread := a2 ++ ['\n'], buf := [], out := [m1] } []
      = { unread := [], buf := [], out := [m1] } := by
    simp [tailerIter, hr2, hd2]
  have hr3 : readBytesNewline (a3 ++ ['\n'])
      = some (a3 ++ ['\n'], []) := by
    have := readBytesNewline_first_line a3 [] h3
    simpa using this
  have s3 : tailerIter decode { unread := [], buf := [], out := [m1] } (a3 ++ ['\n'])
      = { unread := [], buf := [], out := [m1, m3] } := by
    simp [tailerIter, hr3, hd3]
  constructor
  · show (tailerIter decode
        (tailerIter decode tailerInit ((a1 ++ ['\n']) ++ (a2 ++ ['\n']))) []).out = [m1]
    rw [s1, s2]
  · show (tailerIter decode (tailerIter decode
        (tailerIter decode tailerInit ((a1 ++ ['\n']) ++ (a2 ++ ['\n']))) [])
          (a3 ++ ['\n'])).out = [m1, m3]
    rw [s1, s2, s3]

/-- **C6 witness.** The malformed-record theorem at a concrete input: the
decoder accepts `"a\n"` and `"c\n"` and rejects `"b\n"`. -/
theorem tailer_malformed_record_discarded_witness :
    (tailerRun
        (fun b => if b = ['a', '\n']
          then some { Datetime := "t1", Event := "exited", ProcessName := "p1", ExitCode := 1 }
          else if b = ['c', '\n']
          then some { Datetime := "t2", Event := "exited", ProcessName := "p2", ExitCode := 2 }
          else none)
        tailerInit [(['a'] ++ ['\n']) ++ (['b'] ++ ['\n']), [], ['c'] ++ ['\n']]).out
      = [{ Datetime := "t1", Event := "exited", ProcessName := "p1", ExitCode := 1 },
         { Datetime := "t2", Event := "exited", ProcessName := "p2", ExitCode := 2 }] :=
  (tailer_malformed_record_discarded
    (fun b => if b = ['a', '\n']
      then some { Datetime := "t1", Event := "exited", ProcessName := "p1", ExitCode := 1 }
      else if b = ['c', '\n']
      then some { Datetime := "t2", Event := "exited", ProcessName := "p2", ExitCode := 2 }
      else none)
    ['a'] ['b'] ['c']
    { Datetime := "t1", Event := "exited", ProcessName := "p1", ExitCode := 1 }
    { Datetime := "t2", Event := "exited", ProcessName := "p2", ExitCode := 2 }
    (by decide) (by decide) (by decide)
    (by simp) (by simp) (by simp)).2

/-!
## The read loop after Exit (claim C9)

`RemoveAllJobs` calls `s.monitor.Exit()` (source line 303).  The
`bosh-utils/state` Monitor is an external collaborator; per its interface
(spec section 2) the per-process wait handles are "released permanently on
Exit", so after Exit every `p.Wait()` returns immediately.  The loop body
(source lines 371-391) contains no `break` and no `return`: every branch of
the `switch` — complete line, `io.EOF` plus the 100ms backoff sleep, and the
default error branch — falls through to the next iteration.  Modelled: one
post-Exit iteration is the loop body with nothing further appended to the log
(the services are being deleted); the step returns `some nextState`, `none`
standing for the (unreachable) loop exit.
-/

/-- One iteration of the `monitorJob` loop after the Monitor has Exited:
`p.Wait()` returns immediately, the body runs on an unchanged log, and since
no branch leaves the loop the step always produces a successor state. -/
def monitorJobStepAfterExit (decode : List Char → Option windowsServiceEvent)
    (st : TailerState) : Option TailerState :=
  some (tailerIter decode st [])

/-- Run the post-Exit loop for `n` iterations; `none` means the loop
terminated within those iterations. -/
def monitorJobRunAfterExit (decode : List Char → Option windowsServiceEvent) :
    Nat → TailerState → Option TailerState
  | 0, st => some st
  | n + 1, st =>
    match monitorJobStepAfterExit decode st with
    | some st2 => monitorJobRunAfterExit decode n st2
    | none => none

theorem monitorJobRunAfterExit_isSome (decode : List Char → Option windowsServiceEvent)
    (n : Nat) (st : TailerState) :
    (monitorJobRunAfterExit decode n st).isSome = true := by
  induction n generalizing st with
  | zero => rfl
  | succ k ih =>
    show (monitorJobRunAfterExit decode k (tailerIter decode st [])).isSome = true
    exact ih (tailerIter decode st [])

/-- **C9 counterexample.** The claim that after Exit every tailer's read loop
terminates is false: at a concrete tailer (empty log, any decoder) the loop
has not terminated after any number of iterations — the body, ending in the
end-of-stream backoff, loops forever and the goroutine is leaked. -/
theorem monitorJob_loop_termination_claim_false :
    ¬ ∃ n : Nat, monitorJobRunAfterExit (fun _ => none) n tailerInit = none := by
  rintro ⟨n, hn⟩
  have hs := monitorJobRunAfterExit_isSome (fun _ => none) n tailerInit
  rw [hn] at hs
  exact Bool.noConfusion hs

/-- **C9 amended.** After the Monitor enters Exited the tailer's read loop
does NOT terminate: `p.Wait()` no longer blocks, but every iteration of the
body yields a successor state (no branch breaks the loop), so for every
decoder, every state and every iteration count the loop is still running —
the tailer goroutine is never reclaimed. -/
theorem monitorJob_loop_never_terminates_after_Exit
    (decode : List Char → Option windowsServiceEvent) (n : Nat) (st : TailerState) :
    (monitorJobRunAfterExit decode n st).isSome = true :=
  monitorJobRunAfterExit_isSome decode n st

/-!
## RemoveAllJobs (source lines 302-351)

`RemoveAllJobs` exits the Monitor, issues the delete-all query, then polls
`waitForDeleteAllScript` at a fixed 5ms interval.  The Go loop: run the count
query; a query error returns immediately; a trimmed stdout of `"0"` breaks
with success; otherwise `i` is incremented and `i == MaxRetries` (100) is the
exhaustion error.  Model: `counts k` is the stdout of the `(k+1)`-th count
query; the loop is structural recursion on the remaining increments
(`MaxRetries - 1 - k` for the query at counter value `k`).
-/

/-- `MaxRetries = 100` in the source. -/
def MaxRetries : Nat := 100

/-- Outcome of `RemoveAllJobs`: success (carrying the Go counter `i` at break
time, so `i + 1` count queries were issued), the wrapped delete-query error,
the wrapped count-query error, or the distinct teardown-incomplete error
`"removing Windows job supervisor services after 100 attempts"`. -/
inductive RemoveAllJobsResult where
  | ok (attempts : Nat)
  | deleteError
  | checkError
  | exhausted
deriving DecidableEq

/-- The deletion-confirmation poll loop, at counter value `k` with `fuel`
increments left before `i == MaxRetries` triggers the exhaustion error. -/
def removeAllJobsPoll (counts : Nat → Except Unit String) :
    Nat → Nat → RemoveAllJobsResult
  | fuel, k =>
    match counts k with
    | Except.error _ => RemoveAllJobsResult.checkError
    | Except.ok stdout =>
      if trimSpace stdout = "0" then RemoveAllJobsResult.ok k
      else
        match fuel with
        | 0 => RemoveAllJobsResult.exhausted
        | fuel + 1 => removeAllJobsPoll counts fuel (k + 1)

/-- `windowsJobSupervisor.RemoveAllJobs`: delete-all query, then the poll
loop started at `i = 0` with `MaxRetries - 1 = 99` increments available
(queries are issued at counter values `0` through `99`, 100 in total).
`monitor.Exit()` precedes both (claim C9). -/
def RemoveAllJobs (deleteCmd : Except Unit Unit)
    (counts : Nat → Except Unit String) : RemoveAllJobsResult :=
  match deleteCmd with
  | Except.error _ => RemoveAllJobsResult.deleteError
  | Except.ok _ => removeAllJobsPoll counts (MaxRetries - 1) 0

theorem removeAllJobsPoll_success (counts : Nat → Except Unit String)
    (k0 : Nat) (s0 : String) (h0 : counts k0 = Except.ok s0) (hz : trimSpace s0 = "0") :
    ∀ fuel k, k ≤ k0 → k0 ≤ k + fuel →
      (∀ j, k ≤ j → j < k0 → ∃ s, counts j = Except.ok s ∧ trimSpace s ≠ "0") →
      removeAllJobsPoll counts fuel k = RemoveAllJobsResult.ok k0 := by
  intro fuel
  induction fuel with
  | zero =>
    intro k hk hk2 _
    have : k = k0 := Nat.le_antisymm hk (by simpa using hk2)
    subst this
    simp [removeAllJobsPoll, h0, hz]
  | succ f ih =>
    intro k hk hk2 hmid
    by_cases hkk : k = k0
    · subst hkk
      simp [removeAllJobsPoll, h0, hz]
    · have hklt : k < k0 := Nat.lt_of_le_of_ne hk hkk
      obtain ⟨s, hs, hsne⟩ := hmid k (Nat.le_refl k) hklt
      have step : removeAllJobsPoll counts (f + 1) k = removeAllJobsPoll counts f (k + 1) := by
        simp [removeAllJobsPoll, hs, hsne]
      rw [step]
      exact ih (k + 1) hklt (by omega)
        (fun j hj1 hj2 => hmid j (Nat.le_of_succ_le hj1) hj2)

theorem removeAllJobsPoll_exhausted (counts : Nat → Except Unit String) :
    ∀ fuel k,
      (∀ j, k ≤ j → j ≤ k + fuel → ∃ s, counts j = Except.ok s ∧ trimSpace s ≠ "0") →
      removeAllJobsPoll counts fuel k = RemoveAllJobsResult.exhausted := by
  intro fuel
  induction fuel with
  | zero =>
    intro k hall
    obtain ⟨s, hs, hsne⟩ := hall k (Nat.le_refl k) (by omega)
    simp [removeAllJobsPoll, hs, hsne]
  | succ f ih =>
    intro k hall
    obtain ⟨s, hs, hsne⟩ := hall k (Nat.le_refl k) (by omega)
    have step : removeAllJobsPoll counts (f + 1) k = removeAllJobsPoll counts f (k + 1) := by
      simp [removeAllJobsPoll, hs, hsne]
    rw [step]
    exact ih (k + 1) (fun j hj1 hj2 => hall j (Nat.le_of_succ_le hj1) (by omega))

/-- **C4.** After a successful delete-all query, `RemoveAllJobs` polls the
count query: if the reported counts are non-zero up to poll index `k0 ≤ 99`
and the poll at `k0` reports `"0"`, it succeeds with counter `k0` — exactly
`k0 + 1` polls, as many as the count sequence takes to reach zero; if all 100
polls (indices 0 through 99) report non-zero counts, it returns the distinct
teardown-incomplete `exhausted` error. -/
theorem RemoveAllJobs_poll_behavior (counts : Nat → Except Unit String) :
    (∀ k0 s0, k0 ≤ 99 →
        (∀ j, j < k0 → ∃ s, counts j = Except.ok s ∧ trimSpace s ≠ "0") →
        counts k0 = Except.ok s0 → trimSpace s0 = "0" →
        RemoveAllJobs (Except.ok ()) counts = RemoveAllJobsResult.ok k0)
    ∧ ((∀ j, j ≤ 99 → ∃ s, counts j = Except.ok s ∧ trimSpace s ≠ "0") →
        RemoveAllJobs (Except.ok ()) counts = RemoveAllJobsResult.exhausted) := by
  constructor
  · intro k0 s0 hk0 hmid h0 hz
    show removeAllJobsPoll counts (MaxRetries - 1) 0 = RemoveAllJobsResult.ok k0
    exact removeAllJobsPoll_success counts k0 s0 h0 hz (MaxRetries - 1) 0
      (Nat.zero_le k0) (by simpa [MaxRetries] using hk0)
      (fun j _ hj2 => hmid j hj2)
  · intro hall
    show removeAllJobsPoll counts (MaxRetries - 1) 0 = RemoveAllJobsResult.exhausted
    exact removeAllJobsPoll_exhausted counts (MaxRetries - 1) 0
      (fun j _ hj2 => hall j (by simpa [MaxRetries] using hj2))

/-- **C4 witness.** The poll-success branch at the spec's mock: counts
3, 2, 1, 0 across successive polls — success after exactly 4 polls, with the
Go attempt counter at 3. -/
theorem RemoveAllJobs_poll_behavior_witness :
    RemoveAllJobs (Except.ok ())
        (fun j => Except.ok
          (if j = 0 then "3" else if j = 1 then "2" else if j = 2 then "1" else "0"))
      = RemoveAllJobsResult.ok 3 :=
  (RemoveAllJobs_poll_behavior
      (fun j => Except.ok
        (if j = 0 then "3" else if j = 1 then "2" else if j = 2 then "1" else "0"))).1
    3 "0" (by omega)
    (by intro j hj
        interval_cases j
        · exact ⟨"3", rfl, by decide⟩
        · exact ⟨"2", rfl, by decide⟩
        · exact ⟨"1", rfl, by decide⟩)
    rfl (by decide)

/-!
## Start (source lines 153-167) — claim C8

`Start()` calls `monitor.Start()` (gate back to Running — not part of this
claim), then the start-all manager query, and only on its success
`fs.RemoveAll` on the stopped-marker path.  Externals as parameters:
`startCmd` the manager query result, `removeStoppedFile` the `RemoveAll`
result.  The outcome records the surfaced error, whether the marker file
still exists (a failed `RemoveAll` is modelled as leaving it unchanged), and
whether the removal call was attempted at all.
-/

/-- Observable outcome of `Start()`. -/
structure StartOutcome where
  result : Except String Unit
  stoppedFileExists : Bool
  removeAttempted : Bool

/-- `windowsJobSupervisor.Start`, with `stoppedFileExists` the marker state
on entry. -/
def Start (stoppedFileExists : Bool) (startCmd : Except Unit Unit)
    (removeStoppedFile : Except Unit Unit) : StartOutcome :=
  match startCmd with
  | Except.error _ =>
    { result := Except.error "Starting windows job process"
      stoppedFileExists := stoppedFileExists
      removeAttempted := false }
  | Except.ok _ =>
    match removeStoppedFile with
    | Except.error _ =>
      { result := Except.error "Removing stopped file"
        stoppedFileExists := stoppedFileExists
        removeAttempted := true }
    | Except.ok _ =>
      { result := Except.ok ()
        stoppedFileExists := false
        removeAttempted := true }

/-- **C8.** If the start-all manager query fails, `Start()` surfaces that
error, never attempts to remove the stopped marker, and leaves the marker
untouched; if the query succeeds, the removal is attempted, and when it
succeeds the marker is gone and `Start()` returns success. -/
theorem Start_marker_only_after_manager_success (marker : Bool)
    (removeStoppedFile : Except Unit Unit) :
    ((Start marker (Except.error ()) removeStoppedFile).removeAttempted = false
      ∧ (Start marker (Except.error ()) removeStoppedFile).stoppedFileExists = marker
      ∧ (Start marker (Except.error ()) removeStoppedFile).result
          = Except.error "Starting windows job process")
    ∧ (Start marker (Except.ok ()) removeStoppedFile).removeAttempted = true
    ∧ (Start marker (Except.ok ()) (Except.ok ())).stoppedFileExists = false
    ∧ (Start marker (Except.ok ()) (Except.ok ())).result = Except.ok () := by
  refine ⟨⟨rfl, rfl, rfl⟩, ?_, rfl, rfl⟩
  cases removeStoppedFile <;> rfl

/-!
## Failure dispatch loop (`MonitorJobFailures`, source lines 396-408) — claim C7
-/

/-- `boshalert.MonitAlert`: the externally-defined alert record. -/
structure MonitAlert where
  Action : String
  Date : String
  Event : String
  ID : String
  Service : String
  Description : String
deriving DecidableEq

/-- The `for m := range s.msgCh` loop of `MonitorJobFailures`: one handler
invocation per drained event, in order; the handler's return value is not
inspected.  Each invocation is recorded as the alert passed together with the
value the handler returned for it. -/
def MonitorJobFailuresCalls (handler : MonitAlert → Except Unit Unit) :
    List windowsServiceEvent → List (MonitAlert × Except Unit Unit)
  | [] => []
  | m :: ms =>
    let alert : MonitAlert :=
      { Action := "Start"
        Date := m.Datetime
        Event := "pid failed"
        ID := m.ProcessName
        Service := m.ProcessName
        Description := "exited with code " ++ toString m.ExitCode }
    (alert, handler alert) :: MonitorJobFailuresCalls handler ms

/-- `windowsJobSupervisor.MonitorJobFailures`: drains the channel until it is
closed (`events` is the drained sequence) and then returns `nil`, whatever
the handler returned along the way. -/
def MonitorJobFailures (handler : MonitAlert → Except Unit Unit)
    (events : List windowsServiceEvent) :
    List (MonitAlert × Except Unit Unit) × Except Unit Unit :=
  (MonitorJobFailuresCalls handler events, Except.ok ())

/-- **C7.** For every drained event the dispatch loop invokes the handler
exactly once — one invocation per event, in order — with an alert whose
action is `"Start"`, whose event label is `"pid failed"`, whose identifier
(and service) equal the event's process name, whose date is the event's
timestamp, and whose description embeds the exit code; and the loop's own
result is `ok` regardless of what the handler returned. -/
theorem MonitorJobFailures_dispatch (handler : MonitAlert → Except Unit Unit)
    (events : List windowsServiceEvent) :
    (MonitorJobFailures handler events).1
        = events.map (fun m =>
            (({ Action := "Start"
                Date := m.Datetime
                Event := "pid failed"
                ID := m.ProcessName
                Service := m.ProcessName
                Description := "exited with code " ++ toString m.ExitCode } : MonitAlert),
             handler
               { Action := "Start"
                 Date := m.Datetime
                 Event := "pid failed"
                 ID := m.ProcessName
                 Service := m.ProcessName
                 Description := "exited with code " ++ toString m.ExitCode }))
      ∧ (MonitorJobFailures handler events).2 = Except.ok () := by
  constructor
  · show MonitorJobFailuresCalls handler events = _
    induction events with
    | nil => rfl
    | cons m ms ih => simp [MonitorJobFailuresCalls, ih]
  · rfl

/-!
## AddJob (source lines 222-300) — claim C10

`AddJob` reads the registration file; a read error is returned as is; empty
contents succeed immediately (only a debug log); otherwise the contents are
parsed (`json.Unmarshal`) and each process is installed in order, aborting at
the first error.  Externals as parameters: the file contents, the JSON parse
and XML encode codecs, and an oracle `ops` giving the result of each
filesystem/command side effect.  Every side effect actually performed is
recorded, in order, in the returned step trace.
-/

/-- The externally visible side-effecting steps of `AddJob`, tagged with the
process name where applicable. -/
inductive AddJobStep where
  | parseConfig
  | mkdirLogDir (processName : String)
  | mkdirProcessDir (processName : String)
  | writeEventLogFile (processName : String)
  | spawnTailer (processName : String)
  | writeServiceDescriptor (processName : String)
  | writeAppRuntimeConfig (processName : String)
  | copyWrapperExe (processName : String)
  | runInstallCommand (processName : String)
deriving DecidableEq

/-- The per-process body of the `AddJob` loop (source lines 240-297), in
source order: create the log directory, render the descriptor XML, create the
process directory, create the (empty) event-log file, start the tailer
(`monitorJob`, whose only fallible part is opening that file), write the
descriptor file, write the fixed app runtime config, copy the wrapper
executable, and run its `install` verb.  The first failing step aborts with a
wrapped error; the trace lists the steps attempted. -/
def addJobProcess (ops : AddJobStep → Except Unit Unit)
    (xmlEncode : WindowsServiceWrapperConfig → Except Unit (List Char))
    (logPath : String) (p : WindowsProcess) : Except String Unit × List AddJobStep :=
  let t1 := [AddJobStep.mkdirLogDir p.Name]
  match ops (AddJobStep.mkdirLogDir p.Name) with
  | Except.error _ => (Except.error ("Creating log directory for service " ++ p.Name), t1)
  | Except.ok _ =>
  match xmlEncode (p.ServiceWrapperConfig logPath) with
  | Except.error _ =>
    (Except.error ("Rendering service config template for service " ++ p.Name), t1)
  | Except.ok _ =>
  let t2 := t1 ++ [AddJobStep.mkdirProcessDir p.Name]
  match ops (AddJobStep.mkdirProcessDir p.Name) with
  | Except.error _ => (Except.error ("Creating job directory for service " ++ p.Name), t2)
  | Except.ok _ =>
  let t3 := t2 ++ [AddJobStep.writeEventLogFile p.Name]
  match ops (AddJobStep.writeEventLogFile p.Name) with
  | Except.error _ =>
    (Except.error ("Creating JSON log directory for service " ++ p.Name), t3)
  | Except.ok _ =>
  let t4 := t3 ++ [AddJobStep.spawnTailer p.Name]
  match ops (AddJobStep.spawnTailer p.Name) with
  | Except.error _ => (Except.error ("Monitoring job for service " ++ p.Name), t4)
  | Except.ok _ =>
  let t5 := t4 ++ [AddJobStep.writeServiceDescriptor p.Name]
  match ops (AddJobStep.writeServiceDescriptor p.Name) with
  | Except.error _ => (Except.error ("Saving service config file for service " ++ p.Name), t5)
  | Except.ok _ =>
  let t6 := t5 ++ [AddJobStep.writeAppRuntimeConfig p.Name]
  match ops (AddJobStep.writeAppRuntimeConfig p.Name) with
  | Except.error _ =>
    (Except.error ("Saving app runtime config file for service " ++ p.Name), t6)
  | Except.ok _ =>
  let t7 := t6 ++ [AddJobStep.copyWrapperExe p.Name]
  match ops (AddJobStep.copyWrapperExe p.Name) with
  | Except.error _ => (Except.error ("Copying service wrapper in job directory " ++ p.Name), t7)
  | Except.ok _ =>
  let t8 := t7 ++ [AddJobStep.runInstallCommand p.Name]
  match ops (AddJobStep.runInstallCommand p.Name) with
  | Except.error _ => (Except.error ("Creating service " ++ p.Name), t8)
  | Except.ok _ => (Except.ok (), t8)

/-- The `for _, process := range processConfig.Processes` loop: install each
process in order, aborting at the first error. -/
def addJobProcesses (ops : AddJobStep → Except Unit Unit)
    (xmlEncode : WindowsServiceWrapperConfig → Except Unit (List Char))
    (logsDir jobName : String) :
    List WindowsProcess → List AddJobStep → Except String Unit × List AddJobStep
  | [], acc => (Except.ok (), acc)
  | p :: ps, acc =>
    let logPath := logsDir ++ "/" ++ jobName ++ "/" ++ p.Name
    match addJobProcess ops xmlEncode logPath p with
    | (Except.error e, steps) => (Except.error e, acc ++ steps)
    | (Except.ok _, steps) => addJobProcesses ops xmlEncode logsDir jobName ps (acc ++ steps)

/-- `windowsJobSupervisor.AddJob` (source lines 222-300): read the
registration file (`readConfigFile` its result), return a read error as is,
succeed immediately when the contents are empty, otherwise parse and install
every process. -/
def AddJob (ops : AddJobStep → Except Unit Unit)
    (parse : List Char → Except Unit WindowsProcessConfig)
    (xmlEncode : WindowsServiceWrapperConfig → Except Unit (List Char))
    (logsDir jobName : String)
    (readConfigFile : Except Unit (List Char)) : Except String Unit × List AddJobStep :=
  match readConfigFile with
  | Except.error _ => (Except.error "reading monit config file", [])
  | Except.ok contents =>
    if contents.length = 0 then (Except.ok (), [])
    else
      match parse contents with
      | Except.error _ => (Except.error "unmarshaling monit config file", [AddJobStep.parseConfig])
      | Except.ok cfg =>
        addJobProcesses ops xmlEncode logsDir jobName cfg.Processes [AddJobStep.parseConfig]

/-- **C10.** For every job name and every readable registration file with
empty (zero-byte) contents, `AddJob` returns success and performs no step at
all: the file is not parsed, no descriptor or other file is written, no OS
service is registered and no tailer is spawned — the empty-contents check
short-circuits before any side effect. -/
theorem AddJob_empty_config_is_noop (ops : AddJobStep → Except Unit Unit)
    (parse : List Char → Except Unit WindowsProcessConfig)
    (xmlEncode : WindowsServiceWrapperConfig → Except Unit (List Char))
    (logsDir jobName : String) :
    AddJob ops parse xmlEncode logsDir jobName (Except.ok [])
      = (Except.ok (), []) := rfl

end jobsupervisor
